import Mathlib

/-!
Verification of the service-registry + API-gateway core of the
shopping-list microservices system (shared/serviceRegistry.js and the
gateway in api-gateway/server.js).

The JavaScript is embedded shallowly: the registry store (a JSON object
keyed by service name) becomes an association list with unique keys,
asynchronous network calls become explicit `Except`-valued call outcomes
passed as arguments, and the circuit breaker's mutable record becomes a
state value threaded through `executeWithCircuitBreaker`.
-/

namespace ShoppingMicro

/-- `charsPrefixOf sub l` is true when `sub` is a prefix of `l`
(character-list version of string prefix, used to model JS
`String.prototype.includes`). -/
def charsPrefixOf : List Char → List Char → Bool
  | [], _ => true
  | _ :: _, [] => false
  | a :: as, b :: bs => a = b && charsPrefixOf as bs

/-- `charsInfixOf sub l` is true when `sub` occurs contiguously inside `l`. -/
def charsInfixOf : List Char → List Char → Bool
  | sub, [] => charsPrefixOf sub []
  | sub, b :: bs => charsPrefixOf sub (b :: bs) || charsInfixOf sub bs

/-- Model of JS `s.includes(sub)`: substring occurrence test. -/
def strIncludes (s sub : String) : Bool := charsInfixOf sub.toList s.toList

/-- Model of JS `s.startsWith(pre)`. -/
def strStartsWith (s pre : String) : Bool := charsPrefixOf pre.toList s.toList

/-- A registry record, as written by `register` in serviceRegistry.js:
`{...serviceInfo, registeredAt, lastHealthCheck, healthy, pid}`. -/
structure ServiceRecord where
  url : String
  version : String
  endpoints : List String
  registeredAt : Nat
  lastHealthCheck : Nat
  healthy : Bool
  pid : Nat
deriving DecidableEq, Repr

/-- The registry store: the parsed content of services-registry.json, a JSON
object keyed by service name, modelled as an association list (JS object keys
are unique; operations below preserve key uniqueness). -/
abbrev Table := List (String × ServiceRecord)

/-- JS property read `services[serviceName]`: first (unique) matching key. -/
def lookupService : Table → String → Option ServiceRecord
  | [], _ => none
  | (n, s) :: rest, name => if n = name then some s else lookupService rest name

/-- The shape of a caught JS exception as the gateway inspects it:
`error.message`, `error.code` (e.g. 'ECONNREFUSED'), and `error.response`
(present exactly when a downstream HTTP response with an error status was
received, carrying that response's status and body). -/
structure DownstreamResponse where
  status : Nat
  body : String
deriving DecidableEq, Repr

structure JsError where
  message : String
  code : Option String
  response : Option DownstreamResponse
deriving DecidableEq, Repr

/-- A plain `new Error(msg)`: no code, no attached response. -/
def plainError (msg : String) : JsError := ⟨msg, none, none⟩

/-- `throw new Error('Serviço não encontrado: ' + serviceName)` -/
def notFoundError (svc : String) : JsError :=
  plainError ("Serviço não encontrado: " ++ svc)

/-- `throw new Error('Serviço indisponível: ' + serviceName)` -/
def unavailableError (svc : String) : JsError :=
  plainError ("Serviço indisponível: " ++ svc)

/-- `throw new Error('Circuit breaker aberto para ' + serviceName)` -/
def circuitOpenError (svc : String) : JsError :=
  plainError ("Circuit breaker aberto para " ++ svc)

/-- `discover(serviceName)`: absent → ServiceNotFound error, present but
`!service.healthy` → ServiceUnavailable error, otherwise the record. -/
def discover (t : Table) (name : String) : Except JsError ServiceRecord :=
  match lookupService t name with
  | none => .error (notFoundError name)
  | some s => if s.healthy = false then .error (unavailableError name) else .ok s

/-- The non-timestamp part of `serviceInfo` passed to `register`. -/
structure ServiceInfo where
  url : String
  version : String
  endpoints : List String
deriving DecidableEq, Repr

/-- Upsert at a key, JS-object style: overwrite in place if the key exists,
append otherwise. -/
def setKey : Table → String → ServiceRecord → Table
  | [], name, r => [(name, r)]
  | (n, s) :: rest, name, r =>
    if n = name then (n, r) :: rest else (n, s) :: setKey rest name r

/-- `register(serviceName, serviceInfo)`: stamps `registeredAt` and
`lastHealthCheck` to now, `healthy = true`, `pid` of the registering
process, overwriting any previous record under that name. -/
def register (t : Table) (name : String) (info : ServiceInfo)
    (now pid : Nat) : Table :=
  setKey t name
    { url := info.url, version := info.version, endpoints := info.endpoints,
      registeredAt := now, lastHealthCheck := now, healthy := true, pid := pid }

/-- JS `delete services[name]`: removes the (unique) key. -/
def eraseKey : Table → String → Table
  | [], _ => []
  | (n, s) :: rest, name => if n = name then rest else (n, s) :: eraseKey rest name

/-- `unregister(serviceName)`: deletes the record if present, reporting
whether one existed. -/
def unregister (t : Table) (name : String) : Table × Bool :=
  match lookupService t name with
  | some _ => (eraseKey t name, true)
  | none => (t, false)

/-- `updateHealth(serviceName, healthy)`: sets the flag and stamps
`lastHealthCheck`; a silent no-op when the name is absent. -/
def updateHealth : Table → String → Bool → Nat → Table
  | [], _, _, _ => []
  | (n, s) :: rest, name, h, now =>
    if n = name then (n, { s with healthy := h, lastHealthCheck := now }) :: rest
    else (n, s) :: updateHealth rest name h now

/-- `cleanup()`: removes every record whose `pid` equals the cleaning
process's pid, leaving the rest in place (the JS iterates a snapshot of
`Object.entries` and deletes matching keys). -/
def cleanup : Table → Nat → Table
  | [], _ => []
  | (n, s) :: rest, currentPid =>
    if s.pid = currentPid then cleanup rest currentPid
    else (n, s) :: cleanup rest currentPid

/-- State of services-registry.json on disk as `readRegistry` encounters it:
missing, present but unreadable/unparseable, or holding a parsed table. -/
inductive FileState where
  | missing
  | unreadable
  | content (t : Table)
deriving DecidableEq, Repr

/-- `readRegistry()`: `fs.readFileSync` + `JSON.parse` inside try/catch —
a missing file (readFileSync throws) or an unparseable one (JSON.parse
throws) yields the empty table instead of propagating the error. -/
def readRegistry : FileState → Table
  | .missing => []
  | .unreadable => []
  | .content t => t

/-- State tag of a breaker: the JS strings 'closed' / 'open' / 'half-open'. -/
inductive CBState where
  | closed
  | opened
  | halfOpen
deriving DecidableEq, Repr

/-- One entry of the gateway's `circuitBreakers` map, as created by
`getCircuitBreaker`: `{state: 'closed', failureCount: 0, lastFailTime: 0}`. -/
structure CircuitBreaker where
  state : CBState
  failureCount : Nat
  lastFailTime : Nat
deriving DecidableEq, Repr

/-- The fresh breaker `getCircuitBreaker` creates on first use of a name. -/
def freshBreaker : CircuitBreaker := ⟨.closed, 0, 0⟩

/-- `executeWithCircuitBreaker(serviceName, operation)`.

The wrapped async operation is modelled by the outcome `op` it would
produce if invoked; the returned `Bool` records whether it was invoked
(false exactly on the short-circuit path that throws before `operation()`).
Timestamps are epoch milliseconds; `Date.now() - lastFailTime > 30000`
is the JS cooldown test (truncated `Nat` subtraction agrees with JS here,
both make the test false when `now ≤ lastFailTime`). -/
def executeWithCircuitBreaker (serviceName : String) (cb : CircuitBreaker)
    (now : Nat) (op : Except JsError DownstreamResponse) :
    CircuitBreaker × Except JsError DownstreamResponse × Bool :=
  let gate : Except JsError CircuitBreaker :=
    if cb.state = .opened then
      if now - cb.lastFailTime > 30000 then .ok { cb with state := .halfOpen }
      else .error (circuitOpenError serviceName)
    else .ok cb
  match gate with
  | .error e => (cb, .error e, false)
  | .ok cb1 =>
    match op with
    | .ok result =>
      let cb2 := if cb1.state = .halfOpen
        then { cb1 with state := .closed, failureCount := 0 } else cb1
      (cb2, .ok result, true)
    | .error e =>
      let fc := cb1.failureCount + 1
      let cb2 := { cb1 with failureCount := fc, lastFailTime := now }
      let cb3 := if fc ≥ 3 then { cb2 with state := .opened } else cb2
      (cb3, .error e, true)

/-- Body of a gateway reply, distinguishing the structured error bodies the
proxy builds from a relayed downstream body. -/
inductive ReplyBody where
  /-- `{success:false, message:'Serviço temporariamente indisponível',
  service, error:'Circuit breaker aberto'}` -/
  | circuitOpenBody (service : String)
  /-- `{success:false, message:'Serviço indisponível', service}` -/
  | unavailableBody (service : String)
  /-- `{success:false, message:'Erro interno do gateway', service}` -/
  | internalErrorBody (service : String)
  /-- a downstream body passed through unchanged -/
  | relayed (body : String)
deriving DecidableEq, Repr

structure GatewayReply where
  status : Nat
  body : ReplyBody
deriving DecidableEq, Repr

/-- The catch-block of `proxyToService`, classifying a caught error:
circuit-breaker marker in the message → 503; `ECONNREFUSED` code or
not-found marker in the message → 503; attached downstream response →
relay its status and body; otherwise → 500. -/
def handleProxyError (serviceName : String) (e : JsError) : GatewayReply :=
  if strIncludes e.message "Circuit breaker aberto" then
    ⟨503, .circuitOpenBody serviceName⟩
  else if e.code = some "ECONNREFUSED" || strIncludes e.message "não encontrado" then
    ⟨503, .unavailableBody serviceName⟩
  else
    match e.response with
    | some r => ⟨r.status, .relayed r.body⟩
    | none => ⟨500, .internalErrorBody serviceName⟩

/-- `proxyToService(serviceName, req, res)`: discover the target, then run
the forward (outcome `op`) through the breaker; on success relay status and
body, on any caught error classify via the catch-block. Path rewriting and
header stripping happen between the two steps and do not affect the error
classification, so they are not modelled here. Returns the breaker after
the call together with the HTTP reply sent. -/
def proxyToService (serviceName : String) (t : Table) (cb : CircuitBreaker)
    (now : Nat) (op : Except JsError DownstreamResponse) :
    CircuitBreaker × GatewayReply :=
  match discover t serviceName with
  | .error e => (cb, handleProxyError serviceName e)
  | .ok _service =>
    match executeWithCircuitBreaker serviceName cb now op with
    | (cb1, .ok r, _) => (cb1, ⟨r.status, .relayed r.body⟩)
    | (cb1, .error e, _) => (cb1, handleProxyError serviceName e)

/-- Runs a sequence of calls through one breaker, each given as
(time of the call, outcome the operation would produce); returns the final
breaker and, per call, whether the wrapped operation was invoked. -/
def runBreakerCalls (serviceName : String) (cb : CircuitBreaker) :
    List (Nat × Except JsError DownstreamResponse) → CircuitBreaker × List Bool
  | [] => (cb, [])
  | (now, op) :: rest =>
    match executeWithCircuitBreaker serviceName cb now op with
    | (cb1, _, invoked) =>
      match runBreakerCalls serviceName cb1 rest with
      | (cbFinal, flags) => (cbFinal, invoked :: flags)

/-- The `database` block of a downstream `/health` payload, read with
optional chaining and `|| 0` defaults in the aggregator. -/
structure HealthPayload where
  userCount : Option Nat := none
  itemCount : Option Nat := none
  activeItems : Option Nat := none
  listCount : Option Nat := none
  activeLists : Option Nat := none
deriving DecidableEq, Repr

/-- Status tag of one dashboard section: 'healthy', or 'unhealthy' carrying
`error.message`. -/
inductive SectionStatus where
  | healthy
  | unhealthy (errMsg : String)
deriving DecidableEq, Repr

/-- `dashboard.summary` as initialised to all zeroes and then mutated. -/
structure Summary where
  totalUsers : Nat := 0
  totalItems : Nat := 0
  activeItems : Nat := 0
  totalLists : Nat := 0
  activeLists : Nat := 0
  userLists : Nat := 0
  categories : Nat := 0
deriving DecidableEq, Repr

/-- The assembled dashboard: one status per service section plus the
numeric summary (user identity echo omitted: not relevant to aggregation). -/
structure Dashboard where
  userService : SectionStatus
  itemService : SectionStatus
  listService : SectionStatus
  summary : Summary
deriving DecidableEq, Repr

/-- The first try/catch of `aggregateDashboardData`: discover
'user-service', GET its `/health`; on success record the section healthy
and `summary.totalUsers = userCount || 0`, on any throw record the section
unhealthy with the error message (the summary field keeps its initial 0).
Returns (section status, totalUsers). -/
def userSection (t : Table) (userHealth : Except JsError HealthPayload) :
    SectionStatus × Nat :=
  match discover t "user-service" with
  | .error e => (.unhealthy e.message, 0)
  | .ok _ =>
    match userHealth with
    | .error e => (.unhealthy e.message, 0)
    | .ok p => (.healthy, p.userCount.getD 0)

/-- The second try/catch: discover 'item-service', GET `/health`, record
`totalItems`/`activeItems`, then GET `/categories`. The summary's item
counts are written before the categories call, so a categories failure
marks the section unhealthy but leaves the already-written counts in
place. Returns (section status, totalItems, activeItems, categories). -/
def itemSection (t : Table) (itemHealth : Except JsError HealthPayload)
    (categoriesResp : Except JsError (List String)) :
    SectionStatus × Nat × Nat × Nat :=
  match discover t "item-service" with
  | .error e => (.unhealthy e.message, 0, 0, 0)
  | .ok _ =>
    match itemHealth with
    | .error e => (.unhealthy e.message, 0, 0, 0)
    | .ok p =>
      match categoriesResp with
      | .error e =>
        (.unhealthy e.message, p.itemCount.getD 0, p.activeItems.getD 0, 0)
      | .ok cs =>
        (.healthy, p.itemCount.getD 0, p.activeItems.getD 0, cs.length)

/-- The third try/catch: discover 'list-service', GET `/health`, and — only
when a user is present — GET that user's `/lists` inside a nested
try/catch whose failure just leaves `userLists = 0`. Returns
(section status, totalLists, activeLists, userLists). -/
def listSection (t : Table) (user : Option String)
    (listHealth : Except JsError HealthPayload)
    (userListsResp : Except JsError (List String)) :
    SectionStatus × Nat × Nat × Nat :=
  match discover t "list-service" with
  | .error e => (.unhealthy e.message, 0, 0, 0)
  | .ok _ =>
    match listHealth with
    | .error e => (.unhealthy e.message, 0, 0, 0)
    | .ok p =>
      let ul :=
        match user with
        | none => 0
        | some _ =>
          match userListsResp with
          | .ok ls => ls.length
          | .error _ => 0
      (.healthy, p.listCount.getD 0, p.activeLists.getD 0, ul)

/-- `aggregateDashboardData(user)`: the three independent try/catch
sections above, assembled into the dashboard object. Arguments after the
table are the outcomes of the network calls the aggregator can issue, in
the order the JS issues them: user `/health`, item `/health`, item
`/categories`, list `/health`, the user's `/lists`. -/
def aggregateDashboardData (t : Table) (user : Option String)
    (userHealth : Except JsError HealthPayload)
    (itemHealth : Except JsError HealthPayload)
    (categoriesResp : Except JsError (List String))
    (listHealth : Except JsError HealthPayload)
    (userListsResp : Except JsError (List String)) : Dashboard :=
  let us := userSection t userHealth
  let its := itemSection t itemHealth categoriesResp
  let ls := listSection t user listHealth userListsResp
  { userService := us.1
    itemService := its.1
    listService := ls.1
    summary :=
      { totalUsers := us.2, totalItems := its.2.1,
        activeItems := its.2.2.1, totalLists := ls.2.1,
        activeLists := ls.2.2.1, userLists := ls.2.2.2,
        categories := its.2.2.2 } }

/-- The `GET /api/dashboard` handler body after authentication: it awaits
`aggregateDashboardData` and answers 200 with the result; its catch-500
branch is unreachable because every fallible step inside the aggregator is
wrapped in its own try/catch (the aggregator is a total function here). -/
def dashboardRoute (t : Table) (user : Option String)
    (userHealth itemHealth : Except JsError HealthPayload)
    (categoriesResp : Except JsError (List String))
    (listHealth : Except JsError HealthPayload)
    (userListsResp : Except JsError (List String)) : Nat × Dashboard :=
  (200, aggregateDashboardData t user userHealth itemHealth categoriesResp
    listHealth userListsResp)

/-- An outbound request the gateway issues while searching, tagged with the
service name it targets. -/
structure GatewayRequest where
  target : String
  path : String
deriving DecidableEq, Repr

/-- `results` object of `performGlobalSearch`. -/
structure SearchResults where
  items : List String
  lists : List String
deriving DecidableEq, Repr

/-- `performGlobalSearch(query, type)`: for type 'all' or 'items' it
discovers the item service and queries `{url}/search` (outcome
`itemSearchResp`), any failure leaving `results.items` at `[]`; the
`lists` field starts `[]` and, for type 'lists', is only reassigned `[]`
(a comment in the source notes list search would need authentication).
Also returns the list of outbound service requests issued. -/
def performGlobalSearch (t : Table) (q ty : String)
    (itemSearchResp : Except JsError (List String)) :
    SearchResults × List GatewayRequest :=
  let (items, reqs) :=
    if ty = "all" || ty = "items" then
      match discover t "item-service" with
      | .error _ => (([] : List String), ([] : List GatewayRequest))
      | .ok s =>
        match itemSearchResp with
        | .ok found => (found, [⟨"item-service", s.url ++ "/search?q=" ++ q⟩])
        | .error _ => ([], [⟨"item-service", s.url ++ "/search?q=" ++ q⟩])
    else ([], [])
  let lists : List String := []
  ({ items := items, lists := lists }, reqs)

/-- `response.data` of `POST {userService.url}/auth/validate`. -/
structure ValidateResponse where
  success : Bool
  user : String
  message : String
deriving DecidableEq, Repr

/-- Outcome of the auth middleware: a response sent without invoking the
protected handler, or `next()` with `req.user` attached. -/
inductive AuthOutcome where
  | reject (status : Nat) (msg : String)
  | proceed (user : String)
deriving DecidableEq, Repr

/-- `authMiddleware(req, res, next)`: header absent or not starting with
'Bearer ' → 401; otherwise discover 'user-service' and POST the token to
`/auth/validate` (outcome `validateResp`) inside try/catch — any throw
(discovery failure, network error, timeout) lands in the catch and answers
401 'Token inválido'; a response with `success` false is answered 401 with
that response's message; `success` true calls `next()`. -/
def authMiddleware (t : Table) (authHeader : Option String)
    (validateResp : Except JsError ValidateResponse) : AuthOutcome :=
  match authHeader with
  | none => .reject 401 "Token obrigatório"
  | some h =>
    if ¬ (strStartsWith h "Bearer ") then .reject 401 "Token obrigatório"
    else
      match discover t "user-service" with
      | .error _ => .reject 401 "Token inválido"
      | .ok _ =>
        match validateResp with
        | .error _ => .reject 401 "Token inválido"
        | .ok vr =>
          if vr.success then .proceed vr.user else .reject 401 vr.message

/-! ## Helper lemmas -/

theorem notFound_ne_unavailable (name : String) :
    notFoundError name ≠ unavailableError name := by
  intro h
  have hm : ("Serviço não encontrado: " ++ name) = ("Serviço indisponível: " ++ name) :=
    congrArg JsError.message h
  have hd := congrArg String.data hm
  simp [String.data_append] at hd

theorem lookupService_eq_none_of_not_mem {t : Table} {name : String}
    (h : name ∉ t.map Prod.fst) : lookupService t name = none := by
  induction t with
  | nil => rfl
  | cons p rest ih =>
    obtain ⟨n, s⟩ := p
    simp only [List.map_cons, List.mem_cons] at h
    push_neg at h
    simp only [lookupService]
    rw [if_neg fun hn => h.1 hn.symm]
    exact ih h.2

theorem lookupService_eraseKey {t : Table} (name : String)
    (hnd : (t.map Prod.fst).Nodup) : lookupService (eraseKey t name) name = none := by
  induction t with
  | nil => rfl
  | cons p rest ih =>
    obtain ⟨n, s⟩ := p
    simp only [List.map_cons, List.nodup_cons] at hnd
    by_cases hn : n = name
    · subst hn
      simp only [eraseKey, if_pos rfl]
      exact lookupService_eq_none_of_not_mem hnd.1
    · simp only [eraseKey, if_neg hn, lookupService]
      exact ih hnd.2

theorem lookupService_updateHealth (t : Table) (name : String) (hb : Bool)
    (now : Nat) :
    lookupService (updateHealth t name hb now) name =
      (lookupService t name).map
        (fun s => { s with healthy := hb, lastHealthCheck := now }) := by
  induction t with
  | nil => rfl
  | cons p rest ih =>
    obtain ⟨n, s⟩ := p
    by_cases hn : n = name
    · simp [updateHealth, lookupService, hn]
    · simp [updateHealth, lookupService, hn, ih]

/-! ## Claim theorems -/

/-- C5: for every table and name, `discover` fails with ServiceNotFound iff
the name is absent (in particular immediately after `unregister name`), it
fails with ServiceUnavailable iff a record is present with `healthy = false`
(in particular immediately after `updateHealth name false` on a present
name), and otherwise it returns the stored record unchanged. -/
theorem discover_spec_C5 (t : Table) (name : String) (now : Nat)
    (hnd : (t.map Prod.fst).Nodup) :
    (discover t name = .error (notFoundError name) ↔ lookupService t name = none)
    ∧ (discover t name = .error (unavailableError name) ↔
        ∃ s, lookupService t name = some s ∧ s.healthy = false)
    ∧ (∀ s, lookupService t name = some s → s.healthy = true →
        discover t name = .ok s)
    ∧ discover (unregister t name).1 name = .error (notFoundError name)
    ∧ (∀ s, lookupService t name = some s →
        discover (updateHealth t name false now) name =
          .error (unavailableError name)) := by
  have hne := notFound_ne_unavailable name
  refine ⟨?_, ?_, ?_, ?_, ?_⟩
  · constructor
    · intro h
      cases hl : lookupService t name with
      | none => rfl
      | some s =>
        simp only [discover, hl] at h
        by_cases hh : s.healthy = false
        · rw [if_pos hh] at h
          exact absurd (Except.error.inj h).symm hne
        · rw [if_neg hh] at h
          exact absurd h (by simp)
    · intro h
      simp only [discover, h]
  · constructor
    · intro h
      cases hl : lookupService t name with
      | none =>
        simp only [discover, hl] at h
        exact absurd (Except.error.inj h) hne
      | some s =>
        simp only [discover, hl] at h
        by_cases hh : s.healthy = false
        · exact ⟨s, rfl, hh⟩
        · rw [if_neg hh] at h
          exact absurd h (by simp)
    · rintro ⟨s, hl, hh⟩
      simp only [discover, hl, if_pos hh]
  · intro s hl hh
    simp only [discover, hl, hh]
    rfl
  · cases hl : lookupService t name with
    | none =>
      simp only [unregister, hl, discover]
    | some s =>
      simp only [unregister, hl]
      have hk := lookupService_eraseKey (t := t) name hnd
      simp only [discover, hk]
  · intro s hl
    have hu := lookupService_updateHealth t name false now
    rw [hl] at hu
    simp only [discover, hu, Option.map_some]
    rfl

/-- C7: `cleanup` removes exactly the records whose pid matches the cleaning
process's pid — a record survives (unchanged, in place) iff it was in the
store and its pid differs. -/
theorem cleanup_membership_C7 (t : Table) (pid : Nat) (name : String)
    (r : ServiceRecord) :
    (name, r) ∈ cleanup t pid ↔ ((name, r) ∈ t ∧ r.pid ≠ pid) := by
  induction t with
  | nil => simp [cleanup]
  | cons p rest ih =>
    obtain ⟨n, s⟩ := p
    by_cases hp : s.pid = pid
    · rw [cleanup, if_pos hp]
      rw [ih]
      constructor
      · rintro ⟨hm, hr⟩
        exact ⟨List.mem_cons_of_mem _ hm, hr⟩
      · rintro ⟨hm, hr⟩
        rcases List.mem_cons.1 hm with heq | hm'
        · have : r = s := (Prod.mk.injEq _ _ _ _ ▸ heq).2
          exact absurd (this ▸ hp) hr
        · exact ⟨hm', hr⟩
    · rw [cleanup, if_neg hp]
      constructor
      · intro hm
        rcases List.mem_cons.1 hm with heq | hm'
        · have hr : r = s := (Prod.mk.injEq _ _ _ _ ▸ heq).2
          exact ⟨List.mem_cons.2 (Or.inl heq), by rw [hr]; exact hp⟩
        · have := ih.1 hm'
          exact ⟨List.mem_cons_of_mem _ this.1, this.2⟩
      · rintro ⟨hm, hr⟩
        rcases List.mem_cons.1 hm with heq | hm'
        · exact List.mem_cons.2 (Or.inl heq)
        · exact List.mem_cons_of_mem _ (ih.2 ⟨hm', hr⟩)

/-- C8: a missing or unreadable/unparseable store file is read as the empty
table, so every lookup-based operation behaves as if no service were
registered (shown here for `discover`) instead of failing at startup. -/
theorem readRegistry_empty_C8 :
    readRegistry .missing = [] ∧ readRegistry .unreadable = []
    ∧ (∀ name, discover (readRegistry .missing) name =
        .error (notFoundError name))
    ∧ (∀ name, discover (readRegistry .unreadable) name =
        .error (notFoundError name))
    ∧ (∀ name, lookupService (readRegistry .missing) name = none) := by
  refine ⟨rfl, rfl, fun _ => rfl, fun _ => rfl, fun _ => rfl⟩

/-- Witness for `discover_spec_C5` at a concrete one-entry store. -/
theorem discover_spec_C5_witness :
    discover (unregister [("user-service",
      ({ url := "http://localhost:3001", version := "1.0.0", endpoints := [],
         registeredAt := 0, lastHealthCheck := 0, healthy := true,
         pid := 7 } : ServiceRecord))] "user-service").1 "user-service"
      = .error (notFoundError "user-service") :=
  (discover_spec_C5 _ "user-service" 0 (by decide)).2.2.2.1

/-- C2 counterexample: from a fresh breaker, two failures followed by a
success leave the CLOSED breaker with `failureCount = 2`, not 0; one more
failure — the third cumulative, not third consecutive — then opens it. -/
theorem closed_success_counterexample_C2 :
    (runBreakerCalls "svc-b" freshBreaker
      [(1000, .error (plainError "boom")), (2000, .error (plainError "boom")),
       (3000, .ok ⟨200, "ok"⟩)]).1
      = ⟨.closed, 2, 2000⟩
    ∧ (runBreakerCalls "svc-b" freshBreaker
      [(1000, .error (plainError "boom")), (2000, .error (plainError "boom")),
       (3000, .ok ⟨200, "ok"⟩), (4000, .error (plainError "boom"))]).1
      = ⟨.opened, 3, 4000⟩ := by
  exact ⟨rfl, rfl⟩

/-- C2 amended: in the CLOSED state a successful call leaves the breaker
entirely unchanged — `failureCount` keeps its current value rather than
being reset to 0 (the only reset is the successful HALF_OPEN trial) — and a
failing call increments `failureCount` and opens the breaker as soon as the
cumulative count reaches 3, successes in between notwithstanding. -/
theorem closed_breaker_amended_C2 (name : String) (cb : CircuitBreaker)
    (now : Nat) (r : DownstreamResponse) (e : JsError)
    (h : cb.state = .closed) :
    executeWithCircuitBreaker name cb now (.ok r) = (cb, .ok r, true)
    ∧ executeWithCircuitBreaker name cb now (.error e) =
      (if cb.failureCount + 1 ≥ 3
        then ⟨.opened, cb.failureCount + 1, now⟩
        else ⟨.closed, cb.failureCount + 1, now⟩, .error e, true) := by
  obtain ⟨st, fc, lf⟩ := cb
  subst h
  constructor
  · simp [executeWithCircuitBreaker]
  · by_cases h3 : fc + 1 ≥ 3
    · simp [executeWithCircuitBreaker, h3]
    · simp [executeWithCircuitBreaker, h3]

/-- Witness for `closed_breaker_amended_C2`: a CLOSED breaker with two
recorded failures is untouched by a success and opened by a third failure. -/
theorem closed_breaker_amended_C2_witness :
    executeWithCircuitBreaker "svc-b" ⟨.closed, 2, 100⟩ 5000 (.ok ⟨200, "ok"⟩)
      = (⟨.closed, 2, 100⟩, .ok ⟨200, "ok"⟩, true)
    ∧ executeWithCircuitBreaker "svc-b" ⟨.closed, 2, 100⟩ 5000
        (.error (plainError "boom"))
      = (if 2 + 1 ≥ 3 then ⟨.opened, 2 + 1, 5000⟩ else ⟨.closed, 2 + 1, 5000⟩,
        .error (plainError "boom"), true) :=
  closed_breaker_amended_C2 "svc-b" ⟨.closed, 2, 100⟩ 5000 ⟨200, "ok"⟩
    (plainError "boom") rfl

/-- C3 counterexample: with the cooldown exactly elapsed
(`now - lastFailureTime = 30000 ms`, i.e. ≥ 30 s), the call does NOT
transition the OPEN breaker to HALF_OPEN — it is short-circuited with
CircuitOpen and never attempted, because the code tests the strict
`now - lastFailTime > 30000`. -/
theorem open_boundary_counterexample_C3 :
    executeWithCircuitBreaker "svc-b" ⟨.opened, 3, 0⟩ 30000 (.ok ⟨200, "ok"⟩)
      = (⟨.opened, 3, 0⟩, .error (circuitOpenError "svc-b"), false) := rfl

/-- C3 amended: for an OPEN breaker (reachable ones carry
`failureCount ≥ 3`) with strictly more than 30000 ms elapsed since
`lastFailureTime`, the next call is attempted (after the internal
HALF_OPEN transition): success yields a CLOSED breaker with
`failureCount = 0`, failure yields an OPEN breaker with `lastFailureTime`
reset to now, restarting the cooldown. -/
theorem open_after_cooldown_amended_C3 (name : String) (cb : CircuitBreaker)
    (now : Nat) (r : DownstreamResponse) (e : JsError)
    (hst : cb.state = .opened) (hcool : now - cb.lastFailTime > 30000)
    (hfc : 3 ≤ cb.failureCount) :
    executeWithCircuitBreaker name cb now (.ok r)
      = (⟨.closed, 0, cb.lastFailTime⟩, .ok r, true)
    ∧ executeWithCircuitBreaker name cb now (.error e)
      = (⟨.opened, cb.failureCount + 1, now⟩, .error e, true) := by
  have h3 : cb.failureCount + 1 ≥ 3 := by omega
  constructor
  · simp [executeWithCircuitBreaker, hst, hcool]
  · simp [executeWithCircuitBreaker, hst, hcool, h3]

/-- Witness for `open_after_cooldown_amended_C3` just past the cooldown. -/
theorem open_after_cooldown_amended_C3_witness :
    executeWithCircuitBreaker "svc-b" ⟨.opened, 3, 1000⟩ 31001 (.ok ⟨200, "ok"⟩)
      = (⟨.closed, 0, 1000⟩, .ok ⟨200, "ok"⟩, true)
    ∧ executeWithCircuitBreaker "svc-b" ⟨.opened, 3, 1000⟩ 31001
        (.error (plainError "boom"))
      = (⟨.opened, 3 + 1, 31001⟩, .error (plainError "boom"), true) :=
  open_after_cooldown_amended_C3 "svc-b" ⟨.opened, 3, 1000⟩ 31001 ⟨200, "ok"⟩
    (plainError "boom") rfl (by decide) (by decide)

/-- C4: a call on an OPEN breaker before the cooldown has elapsed fails
immediately with CircuitOpen, the wrapped operation not invoked; and after
exactly 3 consecutive failures from a fresh breaker, a prompt 4th call is
short-circuited with the invocation flags reading [true, true, true, false]
— the wrapped operation ran exactly 3 times. -/
theorem open_short_circuit_C4 (name : String) (cb : CircuitBreaker)
    (now : Nat) (op : Except JsError DownstreamResponse)
    (t1 t2 t3 t4 : Nat) (e1 e2 e3 : JsError)
    (op4 : Except JsError DownstreamResponse) :
    (cb.state = .opened → now - cb.lastFailTime < 30000 →
      executeWithCircuitBreaker name cb now op
        = (cb, .error (circuitOpenError name), false))
    ∧ (t4 - t3 < 30000 →
      runBreakerCalls name freshBreaker
        [(t1, .error e1), (t2, .error e2), (t3, .error e3), (t4, op4)]
        = (⟨.opened, 3, t3⟩, [true, true, true, false])) := by
  constructor
  · intro hst hcool
    have hng : ¬ (now - cb.lastFailTime > 30000) := by omega
    simp [executeWithCircuitBreaker, hst, hng]
  · intro h43
    have hng : ¬ (t4 - t3 > 30000) := by omega
    simp [runBreakerCalls, executeWithCircuitBreaker, freshBreaker, hng]

/-- Witness for `open_short_circuit_C4`. -/
theorem open_short_circuit_C4_witness :
    (executeWithCircuitBreaker "svc-b" ⟨.opened, 3, 1000⟩ 2000 (.ok ⟨200, "ok"⟩)
      = (⟨.opened, 3, 1000⟩, .error (circuitOpenError "svc-b"), false))
    ∧ (runBreakerCalls "svc-b" freshBreaker
        [(10, .error (plainError "x")), (20, .error (plainError "x")),
         (30, .error (plainError "x")), (40, .ok ⟨200, "ok"⟩)]
        = (⟨.opened, 3, 30⟩, [true, true, true, false])) :=
  ⟨(open_short_circuit_C4 "svc-b" ⟨.opened, 3, 1000⟩ 2000 (.ok ⟨200, "ok"⟩)
      10 20 30 40 (plainError "x") (plainError "x") (plainError "x")
      (.ok ⟨200, "ok"⟩)).1 rfl (by decide),
   (open_short_circuit_C4 "svc-b" ⟨.opened, 3, 1000⟩ 2000 (.ok ⟨200, "ok"⟩)
      10 20 30 40 (plainError "x") (plainError "x") (plainError "x")
      (.ok ⟨200, "ok"⟩)).2 (by decide)⟩

/-- C1 counterexample: with 'user-service' registered but `healthy = false`,
discovery fails with ServiceUnavailable — whose message 'Serviço
indisponível: …' matches none of the catch-block's 503 branches — so the
router answers 500, not the 503 the claim specifies for discovery
failures. -/
theorem proxy_unavailable_counterexample_C1 :
    discover [("user-service",
      ({ url := "http://localhost:3001", version := "1.0.0", endpoints := [],
         registeredAt := 0, lastHealthCheck := 0, healthy := false,
         pid := 7 } : ServiceRecord))] "user-service"
      = .error (unavailableError "user-service")
    ∧ (proxyToService "user-service" [("user-service",
      ({ url := "http://localhost:3001", version := "1.0.0", endpoints := [],
         registeredAt := 0, lastHealthCheck := 0, healthy := false,
         pid := 7 } : ServiceRecord))] freshBreaker 0 (.ok ⟨200, "ok"⟩)).2
      = ⟨500, .internalErrorBody "user-service"⟩ := by
  exact ⟨rfl, by decide⟩

/-- C1 amended: for the route-table target names, a ServiceNotFound
discovery failure yields 503 with the service name; a ServiceUnavailable
discovery failure (registered but unhealthy) yields 500 — not 503 — with
the service name; a CircuitOpen short-circuit yields 503 with the
circuit-open indicator; an ECONNREFUSED error yields 503; a downstream
HTTP error response (its message free of the gateway's marker phrases, as
axios messages are) is relayed with its original status and body; any
other exception yields 500. -/
theorem proxy_error_mapping_amended_C1 (serviceName : String) (t : Table)
    (cb : CircuitBreaker) (now : Nat) (op : Except JsError DownstreamResponse)
    (hname : serviceName = "user-service" ∨ serviceName = "item-service" ∨
      serviceName = "list-service") :
    (lookupService t serviceName = none →
      (proxyToService serviceName t cb now op).2
        = ⟨503, .unavailableBody serviceName⟩)
    ∧ (∀ s, lookupService t serviceName = some s → s.healthy = false →
      (proxyToService serviceName t cb now op).2
        = ⟨500, .internalErrorBody serviceName⟩)
    ∧ (∀ s, lookupService t serviceName = some s → s.healthy = true →
      cb.state = .opened → now - cb.lastFailTime ≤ 30000 →
      proxyToService serviceName t cb now op
        = (cb, ⟨503, .circuitOpenBody serviceName⟩))
    ∧ (∀ s e, lookupService t serviceName = some s → s.healthy = true →
      cb.state = .closed → op = .error e → e.code = some "ECONNREFUSED" →
      (proxyToService serviceName t cb now op).2.status = 503)
    ∧ (∀ s e resp, lookupService t serviceName = some s → s.healthy = true →
      cb.state = .closed → op = .error e → e.response = some resp →
      e.code ≠ some "ECONNREFUSED" →
      strIncludes e.message "Circuit breaker aberto" = false →
      strIncludes e.message "não encontrado" = false →
      (proxyToService serviceName t cb now op).2
        = ⟨resp.status, .relayed resp.body⟩)
    ∧ (∀ s e, lookupService t serviceName = some s → s.healthy = true →
      cb.state = .closed → op = .error e → e.response = none →
      e.code ≠ some "ECONNREFUSED" →
      strIncludes e.message "Circuit breaker aberto" = false →
      strIncludes e.message "não encontrado" = false →
      (proxyToService serviceName t cb now op).2
        = ⟨500, .internalErrorBody serviceName⟩) := by
  refine ⟨?_, ?_, ?_, ?_, ?_, ?_⟩
  · intro hl
    simp only [proxyToService, discover, hl]
    rcases hname with h | h | h <;> subst h <;> decide
  · intro s hl hh
    simp only [proxyToService, discover, hl, hh, if_true]
    rcases hname with h | h | h <;> subst h <;> decide
  · intro s hl hh hst hcool
    have hng : ¬ (now - cb.lastFailTime > 30000) := by omega
    simp only [proxyToService, discover, hl, hh, executeWithCircuitBreaker,
      hst, hng, if_true, if_false]
    rcases hname with h | h | h <;> subst h <;> simp <;> decide
  · intro s e hl hh hst hop hcode
    subst hop
    simp only [proxyToService, discover, hl, hh, executeWithCircuitBreaker, hst]
    by_cases hm : strIncludes e.message "Circuit breaker aberto"
    · simp [handleProxyError, hm]
    · simp [handleProxyError, hm, hcode]
  · intro s e resp hl hh hst hop hresp hcode hm hnm
    subst hop
    simp only [proxyToService, discover, hl, hh, executeWithCircuitBreaker, hst]
    simp [handleProxyError, hm, hnm, hcode, hresp]
  · intro s e hl hh hst hop hresp hcode hm hnm
    subst hop
    simp only [proxyToService, discover, hl, hh, executeWithCircuitBreaker, hst]
    simp [handleProxyError, hm, hnm, hcode, hresp]

/-- Witness for `proxy_error_mapping_amended_C1`: an empty store makes the
proxy answer 503 naming the missing service. -/
theorem proxy_error_mapping_amended_C1_witness :
    (proxyToService "user-service" [] freshBreaker 0 (.ok ⟨200, "ok"⟩)).2
      = ⟨503, .unavailableBody "user-service"⟩ :=
  (proxy_error_mapping_amended_C1 "user-service" [] freshBreaker 0
    (.ok ⟨200, "ok"⟩) (Or.inl rfl)).1 rfl

/-- C6 counterexample: user-service's health probe is unreachable (so the
claim's hypothesis holds), item-service's health probe succeeds with
`itemCount = 5` but its `/categories` call fails — the item section is
marked unhealthy, yet its summary contribution is 5, not zero: a failing
section whose numeric contribution does not stay zero. The aggregation
still completes and the endpoint answers 200. -/
theorem dashboard_counterexample_C6 :
    aggregateDashboardData
      [("user-service",
        ({ url := "http://localhost:3001", version := "1.0.0", endpoints := [],
           registeredAt := 0, lastHealthCheck := 0, healthy := true,
           pid := 7 } : ServiceRecord)),
       ("item-service",
        ({ url := "http://localhost:3002", version := "1.0.0", endpoints := [],
           registeredAt := 0, lastHealthCheck := 0, healthy := true,
           pid := 8 } : ServiceRecord)),
       ("list-service",
        ({ url := "http://localhost:3003", version := "1.0.0", endpoints := [],
           registeredAt := 0, lastHealthCheck := 0, healthy := true,
           pid := 9 } : ServiceRecord))]
      none
      (.error (plainError "connect ECONNREFUSED 127.0.0.1:3001"))
      (.ok { itemCount := some 5, activeItems := some 4 })
      (.error (plainError "Request failed with status code 500"))
      (.ok { listCount := some 2, activeLists := some 1 })
      (.ok [])
      = { userService := .unhealthy "connect ECONNREFUSED 127.0.0.1:3001"
          itemService := .unhealthy "Request failed with status code 500"
          listService := .healthy
          summary := { totalUsers := 0, totalItems := 5, activeItems := 4,
                       totalLists := 2, activeLists := 1, userLists := 0,
                       categories := 0 } }
    ∧ (5 : Nat) ≠ 0
    ∧ (dashboardRoute
      [("user-service",
        ({ url := "http://localhost:3001", version := "1.0.0", endpoints := [],
           registeredAt := 0, lastHealthCheck := 0, healthy := true,
           pid := 7 } : ServiceRecord))]
      none
      (.error (plainError "connect ECONNREFUSED 127.0.0.1:3001"))
      (.ok { itemCount := some 5, activeItems := some 4 })
      (.error (plainError "Request failed with status code 500"))
      (.ok { listCount := some 2, activeLists := some 1 })
      (.ok [])).1 = 200 := by
  exact ⟨rfl, by decide, rfl⟩

/-- C6 amended: the aggregation always completes and the endpoint answers
200, and no downstream failure propagates out; a section that fails at
discovery or at its health probe is marked unhealthy with the error message
and contributes zero to the summary, other sections being computed
independently from their own calls alone; however, when the item section's
health probe succeeds and only its follow-up `/categories` call fails, the
section is marked unhealthy but retains the item counts already written
from the successful health response (only `categories` stays 0); a failure
of the authenticated user's `/lists` call leaves the list section healthy
with `userLists = 0`. -/
theorem dashboard_amended_C6 (t : Table) (user : Option String)
    (uh ihp : Except JsError HealthPayload) (cr : Except JsError (List String))
    (lh : Except JsError HealthPayload) (ul : Except JsError (List String)) :
    (dashboardRoute t user uh ihp cr lh ul).1 = 200
    ∧ (∀ e, discover t "user-service" = .error e →
        (aggregateDashboardData t user uh ihp cr lh ul).userService
          = .unhealthy e.message
        ∧ (aggregateDashboardData t user uh ihp cr lh ul).summary.totalUsers = 0)
    ∧ (∀ s e, discover t "user-service" = .ok s → uh = .error e →
        (aggregateDashboardData t user uh ihp cr lh ul).userService
          = .unhealthy e.message
        ∧ (aggregateDashboardData t user uh ihp cr lh ul).summary.totalUsers = 0)
    ∧ (∀ s p, discover t "user-service" = .ok s → uh = .ok p →
        (aggregateDashboardData t user uh ihp cr lh ul).userService = .healthy
        ∧ (aggregateDashboardData t user uh ihp cr lh ul).summary.totalUsers
          = p.userCount.getD 0)
    ∧ (∀ e, discover t "item-service" = .error e →
        (aggregateDashboardData t user uh ihp cr lh ul).itemService
          = .unhealthy e.message
        ∧ (aggregateDashboardData t user uh ihp cr lh ul).summary.totalItems = 0
        ∧ (aggregateDashboardData t user uh ihp cr lh ul).summary.activeItems = 0
        ∧ (aggregateDashboardData t user uh ihp cr lh ul).summary.categories = 0)
    ∧ (∀ s e, discover t "item-service" = .ok s → ihp = .error e →
        (aggregateDashboardData t user uh ihp cr lh ul).itemService
          = .unhealthy e.message
        ∧ (aggregateDashboardData t user uh ihp cr lh ul).summary.totalItems = 0
        ∧ (aggregateDashboardData t user uh ihp cr lh ul).summary.activeItems = 0
        ∧ (aggregateDashboardData t user uh ihp cr lh ul).summary.categories = 0)
    ∧ (∀ s p e, discover t "item-service" = .ok s → ihp = .ok p →
        cr = .error e →
        (aggregateDashboardData t user uh ihp cr lh ul).itemService
          = .unhealthy e.message
        ∧ (aggregateDashboardData t user uh ihp cr lh ul).summary.totalItems
          = p.itemCount.getD 0
        ∧ (aggregateDashboardData t user uh ihp cr lh ul).summary.activeItems
          = p.activeItems.getD 0
        ∧ (aggregateDashboardData t user uh ihp cr lh ul).summary.categories = 0)
    ∧ (∀ s p cs, discover t "item-service" = .ok s → ihp = .ok p →
        cr = .ok cs →
        (aggregateDashboardData t user uh ihp cr lh ul).itemService = .healthy
        ∧ (aggregateDashboardData t user uh ihp cr lh ul).summary.totalItems
          = p.itemCount.getD 0
        ∧ (aggregateDashboardData t user uh ihp cr lh ul).summary.categories
          = cs.length)
    ∧ (∀ e, discover t "list-service" = .error e →
        (aggregateDashboardData t user uh ihp cr lh ul).listService
          = .unhealthy e.message
        ∧ (aggregateDashboardData t user uh ihp cr lh ul).summary.totalLists = 0
        ∧ (aggregateDashboardData t user uh ihp cr lh ul).summary.userLists = 0)
    ∧ (∀ s e, discover t "list-service" = .ok s → lh = .error e →
        (aggregateDashboardData t user uh ihp cr lh ul).listService
          = .unhealthy e.message
        ∧ (aggregateDashboardData t user uh ihp cr lh ul).summary.totalLists = 0
        ∧ (aggregateDashboardData t user uh ihp cr lh ul).summary.userLists = 0)
    ∧ (∀ s p u e, discover t "list-service" = .ok s → lh = .ok p →
        user = some u → ul = .error e →
        (aggregateDashboardData t user uh ihp cr lh ul).listService = .healthy
        ∧ (aggregateDashboardData t user uh ihp cr lh ul).summary.totalLists
          = p.listCount.getD 0
        ∧ (aggregateDashboardData t user uh ihp cr lh ul).summary.userLists
          = 0) := by
  refine ⟨rfl, ?_, ?_, ?_, ?_, ?_, ?_, ?_, ?_, ?_, ?_⟩
  · intro e hd
    constructor <;>
      simp only [aggregateDashboardData, userSection, hd]
  · intro s e hd hu
    constructor <;>
      simp only [aggregateDashboardData, userSection, hd, hu]
  · intro s p hd hu
    constructor <;>
      simp only [aggregateDashboardData, userSection, hd, hu]
  · intro e hd
    refine ⟨?_, ?_, ?_, ?_⟩ <;>
      simp only [aggregateDashboardData, itemSection, hd]
  · intro s e hd hi
    refine ⟨?_, ?_, ?_, ?_⟩ <;>
      simp only [aggregateDashboardData, itemSection, hd, hi]
  · intro s p e hd hi hc
    refine ⟨?_, ?_, ?_, ?_⟩ <;>
      simp only [aggregateDashboardData, itemSection, hd, hi, hc]
  · intro s p cs hd hi hc
    refine ⟨?_, ?_, ?_⟩ <;>
      simp only [aggregateDashboardData, itemSection, hd, hi, hc]
  · intro e hd
    refine ⟨?_, ?_, ?_⟩ <;>
      simp only [aggregateDashboardData, listSection, hd]
  · intro s e hd hh
    refine ⟨?_, ?_, ?_⟩ <;>
      simp only [aggregateDashboardData, listSection, hd, hh]
  · intro s p u e hd hh hu hul
    refine ⟨?_, ?_, ?_⟩ <;>
      simp only [aggregateDashboardData, listSection, hd, hh, hu, hul]

/-- Witness for `dashboard_amended_C6`: an empty store fails every
discovery, and the dashboard marks the user section unhealthy with the
ServiceNotFound message while `totalUsers` stays 0. -/
theorem dashboard_amended_C6_witness :
    (aggregateDashboardData [] none (.ok {}) (.ok {}) (.ok []) (.ok {})
      (.ok [])).userService
      = .unhealthy (notFoundError "user-service").message
    ∧ (aggregateDashboardData [] none (.ok {}) (.ok {}) (.ok []) (.ok {})
      (.ok [])).summary.totalUsers = 0 :=
  (dashboard_amended_C6 [] none (.ok {}) (.ok {}) (.ok []) (.ok {})
    (.ok [])).2.1 (notFoundError "user-service") rfl

/-- C9: for every query and type selector, global search issues requests
only to the item service (none to the list service) and returns
`lists = []`; an item-service failure degrades `items` to the empty list
without failing the call. -/
theorem globalSearch_C9 (t : Table) (q ty : String)
    (resp : Except JsError (List String)) :
    (performGlobalSearch t q ty resp).1.lists = []
    ∧ (∀ r, r ∈ (performGlobalSearch t q ty resp).2 → r.target = "item-service")
    ∧ (∀ e, resp = .error e → (performGlobalSearch t q ty resp).1.items = []) := by
  refine ⟨rfl, ?_, ?_⟩
  · intro r hr
    by_cases hty : ty = "all" || ty = "items"
    · simp only [performGlobalSearch, hty] at hr
      cases hd : discover t "item-service" with
      | error e => rw [hd] at hr; simp at hr
      | ok s =>
        rw [hd] at hr
        cases resp with
        | ok found => simp at hr; rw [hr]
        | error e => simp at hr; rw [hr]
    · simp only [performGlobalSearch, hty] at hr
      simp at hr
  · intro e he
    subst he
    by_cases hty : ty = "all" || ty = "items"
    · simp only [performGlobalSearch, hty]
      cases hd : discover t "item-service" with
      | error e2 => simp
      | ok s => simp
    · simp [performGlobalSearch, hty]

/-- Witness for `globalSearch_C9`: a failing item search with
`type = "items"` yields empty items, empty lists. -/
theorem globalSearch_C9_witness :
    (performGlobalSearch [] "arroz" "items"
      (.error (plainError "timeout"))).1.items = []
    ∧ (performGlobalSearch [] "arroz" "items"
      (.error (plainError "timeout"))).1.lists = [] :=
  ⟨(globalSearch_C9 [] "arroz" "items" (.error (plainError "timeout"))).2.2
      (plainError "timeout") rfl,
   (globalSearch_C9 [] "arroz" "items" (.error (plainError "timeout"))).1⟩

/-- C10: a request without a Bearer authorization header is answered 401;
with a Bearer header, every failure of the validation step — user-service
absent from the registry or present but unhealthy (discovery throws), the
validation call erroring or timing out, or a validation response with
`success = false` — is answered 401 (never 503 or 500) and the protected
handler is not invoked. -/
theorem authMiddleware_C10 (t : Table) (hdr : Option String)
    (vr : Except JsError ValidateResponse) :
    (authMiddleware t none vr = .reject 401 "Token obrigatório")
    ∧ (∀ h, hdr = some h → strStartsWith h "Bearer " = false →
        authMiddleware t hdr vr = .reject 401 "Token obrigatório")
    ∧ (∀ h e, hdr = some h → strStartsWith h "Bearer " = true →
        discover t "user-service" = .error e →
        authMiddleware t hdr vr = .reject 401 "Token inválido")
    ∧ (∀ h s e, hdr = some h → strStartsWith h "Bearer " = true →
        discover t "user-service" = .ok s → vr = .error e →
        authMiddleware t hdr vr = .reject 401 "Token inválido")
    ∧ (∀ h s v, hdr = some h → strStartsWith h "Bearer " = true →
        discover t "user-service" = .ok s → vr = .ok v → v.success = false →
        authMiddleware t hdr vr = .reject 401 v.message) := by
  refine ⟨rfl, ?_, ?_, ?_, ?_⟩
  · intro h hh hb
    subst hh
    simp only [authMiddleware, hb]
    rfl
  · intro h e hh hb hd
    subst hh
    simp only [authMiddleware, hb, hd]
    rfl
  · intro h s e hh hb hd hv
    subst hh
    simp only [authMiddleware, hb, hd, hv]
    rfl
  · intro h s v hh hb hd hv hs
    subst hh
    simp only [authMiddleware, hb, hd, hv, hs]
    rfl

/-- Witness for `authMiddleware_C10`: with user-service unregistered, a
Bearer-carrying request is answered 401 (not 503). -/
theorem authMiddleware_C10_witness :
    authMiddleware [] (some "Bearer abc") (.ok ⟨true, "u1", "ok"⟩)
      = .reject 401 "Token inválido" :=
  (authMiddleware_C10 [] (some "Bearer abc") (.ok ⟨true, "u1", "ok"⟩)).2.2.1
    "Bearer abc" (notFoundError "user-service") rfl (by decide) rfl

end ShoppingMicro
